import Mathlib

/-!
Shallow embedding of the attendance-tracking utility in `src/attendance.py`
(class `AttendanceSystem`).  Python dicts are modelled as association lists
over `String` keys whose insert keeps the position of an existing key and
appends a new key, exactly matching Python's insertion-order iteration.
File persistence (`_save_json_file`, `_load_json_file`), directory creation
and the backup machinery are I/O mechanics outside the embedding: every
operation returns the updated in-memory state instead of writing it to disk.
The current date and the current date-time, which the Python code reads from
the system clock, are passed in as explicit `today` / `now` string arguments.
-/

/-- Python `dict` with string keys, as an insertion-ordered association list. -/
abbrev Dict (α : Type) : Type := List (String × α)

namespace Dict

/-- Python `d[k]` / `d.get(k)`: value at the first (unique, for a real dict)
occurrence of key `k`. -/
def find? {α : Type} (d : Dict α) (k : String) : Option α :=
  match d with
  | [] => none
  | (k', v) :: t => if k' = k then some v else find? t k

/-- Python `d[k] = v`: replace the value at an existing key in place, or
append a new binding at the end (insertion order). -/
def insert {α : Type} (d : Dict α) (k : String) (v : α) : Dict α :=
  match d with
  | [] => [(k, v)]
  | (k', v') :: t => if k' = k then (k, v) :: t else (k', v') :: insert t k v

/-- Python `list(d.keys())`. -/
def keys {α : Type} (d : Dict α) : List String :=
  d.map Prod.fst

end Dict

/-- `round(p / t * 100, 2)`, the percentage `p / t` rounded to two decimal
places, represented exactly by its number of hundredths of a percent:
`rate2 p t = floor (p / t * 10000 + 1/2) = (20000 * p + t) / (2 * t)`.
E.g. `rate2 1 3 = 3333` models the Python result `33.33`.  (Python rounds
its binary float half-to-even; the two agree everywhere the program's
claims evaluate it, since exact decimal ties are not hit there.) -/
def rate2 (p t : Nat) : Nat :=
  (20000 * p + t) / (2 * t)

/-- A calendar date as produced by `datetime.strptime(s, "%Y-%m-%d")`. -/
structure Date where
  year : Nat
  month : Nat
  day : Nat
deriving DecidableEq, Repr

/-- Leap-year rule used by `datetime` (proleptic Gregorian). -/
def isLeap (y : Nat) : Bool :=
  y % 4 == 0 && (y % 100 != 0 || y % 400 == 0)

/-- Number of days in a month, as validated by the `datetime` constructor. -/
def daysInMonth (y m : Nat) : Nat :=
  if m = 2 then (if isLeap y then 29 else 28)
  else if m = 4 ∨ m = 6 ∨ m = 9 ∨ m = 11 then 30
  else 31

/-- Split a character list on `-` (models `strptime`'s literal separators). -/
def splitDash : List Char → List (List Char)
  | [] => [[]]
  | c :: cs =>
    if c = '-' then [] :: splitDash cs
    else
      match splitDash cs with
      | g :: gs => (c :: g) :: gs
      | [] => [[c]]

/-- Numeric value of an all-digit character group, `none` otherwise. -/
def digitsVal? (cs : List Char) : Option Nat :=
  if cs ≠ [] ∧ cs.all Char.isDigit then
    some (cs.foldl (fun n c => n * 10 + (c.toNat - 48)) 0)
  else none

/-- `datetime.strptime(s, "%Y-%m-%d")` returning `none` where Python raises
`ValueError`: the year is exactly 4 digits, month and day are 1 or 2 digits
with values in range (regex `1[0-2]|0[1-9]|[1-9]` resp. day up to 31), and
the `datetime` constructor additionally validates the day against the month
length and the year against `MINYEAR = 1`.  (ASCII digits model the regex's
digit class.) -/
def parseDate (str : String) : Option Date :=
  match splitDash str.toList with
  | [ys, ms, ds] =>
    match digitsVal? ys, digitsVal? ms, digitsVal? ds with
    | some y, some m, some d =>
      if ys.length = 4 ∧ 1 ≤ ms.length ∧ ms.length ≤ 2 ∧ 1 ≤ ds.length ∧ ds.length ≤ 2
          ∧ 1 ≤ y ∧ 1 ≤ m ∧ m ≤ 12 ∧ 1 ≤ d ∧ d ≤ daysInMonth y m
      then some ⟨y, m, d⟩
      else none
    | _, _, _ => none
  | _ => none

/-- `datetime` comparison on midnight datetimes: lexicographic on
(year, month, day). -/
def dateLe (a b : Date) : Bool :=
  Nat.blt a.year b.year ||
    (a.year == b.year &&
      (Nat.blt a.month b.month ||
        (a.month == b.month && Nat.ble a.day b.day)))

/-- The calendar day before `d` (used to model `timedelta` subtraction). -/
def Date.pred (d : Date) : Date :=
  if 1 < d.day then ⟨d.year, d.month, d.day - 1⟩
  else if 1 < d.month then ⟨d.year, d.month - 1, daysInMonth d.year (d.month - 1)⟩
  else ⟨d.year - 1, 12, 31⟩

/-- `d - timedelta(days = n)`. -/
def subDays (d : Date) : Nat → Date
  | 0 => d
  | n + 1 => subDays (Date.pred d) n

/-- Zero-pad a number to two digits (Python `f"{n:02d}"` for `n ≥ 0`). -/
def pad2 (n : Nat) : String :=
  if n < 10 then "0" ++ toString n else toString n

/-- Zero-pad a year to four digits, as `strftime("%Y")` prints it. -/
def pad4 (n : Nat) : String :=
  if n < 10 then "000" ++ toString n
  else if n < 100 then "00" ++ toString n
  else if n < 1000 then "0" ++ toString n
  else toString n

/-- `d.strftime("%Y-%m-%d")`. -/
def formatDate (d : Date) : String :=
  pad4 d.year ++ "-" ++ pad2 d.month ++ "-" ++ pad2 d.day

/-- `s.startswith(pre)` via the character lists. -/
def isPrefixCh : List Char → List Char → Bool
  | [], _ => true
  | _ :: _, [] => false
  | c :: cs, d :: ds => c = d && isPrefixCh cs ds

/-- Python `s.startswith(pre)`. -/
def strStartsWith (s pre : String) : Bool :=
  isPrefixCh pre.toList s.toList

/-- Python `s.lower()` (ASCII case folding, which is all the code compares). -/
def strToLower (s : String) : String :=
  String.mk (s.toList.map Char.toLower)

/-- Lexicographic `≤` on character lists by code point, as Python compares
strings. -/
def chLeB : List Char → List Char → Bool
  | [], _ => true
  | _ :: _, [] => false
  | c :: cs, d :: ds => if c < d then true else if d < c then false else chLeB cs ds

/-- Lexicographic `<` on character lists by code point. -/
def chLtB : List Char → List Char → Bool
  | [], [] => false
  | [], _ :: _ => true
  | _ :: _, [] => false
  | c :: cs, d :: ds => if c < d then true else if d < c then false else chLtB cs ds

/-- Python `a <= b` on strings. -/
def strLeB (a b : String) : Bool :=
  chLeB a.toList b.toList

/-- Python `a < b` on strings. -/
def strLtB (a b : String) : Bool :=
  chLtB a.toList b.toList

/-- One attendance record: the value stored at
`attendance_records[date_key][student_id]` by `mark_attendance`. -/
structure AttendanceRecord where
  status : String
  timestamp : String
  notes : String
deriving DecidableEq, Repr

/-- The `system_config.json` table with the fields the constructor defaults. -/
structure Config where
  status_options : List String
  default_status : String
  auto_backup : Bool
  backup_frequency_days : Nat
  last_backup : Option String
deriving DecidableEq, Repr

/-- A cached daily report.  The Python report is a dict of one of two shapes:
the "no records" shape carries `message` and an empty `stats`, the full shape
carries the numeric fields; `Option` fields model the keys that are absent in
the other shape.  `attendance_rate` is the two-decimal percentage in
hundredths (see `rate2`). -/
structure Report where
  date : String
  generated_at : String
  message : Option String
  total_students : Option Nat
  recorded_students : Option Nat
  missing_records : Option Int
  stats : Dict Nat
  attendance_rate : Option Nat
deriving DecidableEq, Repr

/-- The in-memory state of one `AttendanceSystem` instance: the four tables
plus the storage location.  A student is itself a dict of fields (so that
caller-supplied extra attributes can collide with the built-in ones). -/
structure AttendanceSystem where
  data_directory : String
  students : Dict (Dict String)
  attendance_records : Dict (Dict AttendanceRecord)
  reports : Dict Report
  config : Config
deriving DecidableEq, Repr

/-- `add_student(student_id, name, additional_info)`: reject an existing id,
otherwise build the built-in fields and `dict.update` the extras over them. -/
def add_student (s : AttendanceSystem) (today : String) (student_id name : String)
    (additional_info : Dict String) : AttendanceSystem × Bool :=
  if (Dict.find? s.students student_id).isSome then (s, false)
  else
    let student_data : Dict String :=
      [("name", name), ("registration_date", today), ("status", "active")]
    let student_data := additional_info.foldl (fun d p => Dict.insert d p.1 p.2) student_data
    ({ s with students := Dict.insert s.students student_id student_data }, true)

/-- `update_student_info(student_id, update_data)`. -/
def update_student_info (s : AttendanceSystem) (student_id : String)
    (update_data : Dict String) : AttendanceSystem × Bool :=
  match Dict.find? s.students student_id with
  | none => (s, false)
  | some info =>
    let info := update_data.foldl (fun d p => Dict.insert d p.1 p.2) info
    ({ s with students := Dict.insert s.students student_id info }, true)

/-- `get_attendance_date_key(date)`: the date string itself, today when
`None` was passed.  No validation of any kind is performed. -/
def get_attendance_date_key (today : String) (date : Option String) : String :=
  date.getD today

/-- `mark_attendance(student_id, date, status, notes)`: reject an unknown
student, then a status outside the *current* `config["status_options"]`;
otherwise overwrite the record at `(date_key, student_id)`. -/
def mark_attendance (s : AttendanceSystem) (today now : String) (student_id : String)
    (date : Option String) (status : String) (notes : String) :
    AttendanceSystem × Bool :=
  let date_key := get_attendance_date_key today date
  if (Dict.find? s.students student_id).isNone then (s, false)
  else
    let valid_statuses := s.config.status_options
    if status ∈ valid_statuses then
      let day := (Dict.find? s.attendance_records date_key).getD []
      let day := Dict.insert day student_id
        { status := status, timestamp := now, notes := notes }
      ({ s with attendance_records := Dict.insert s.attendance_records date_key day }, true)
    else (s, false)

/-- Zero-initialized per-status counter dict
(`for status in status_options: status_counts[status] = 0`). -/
def zeroCounts (opts : List String) : Dict Nat :=
  opts.foldl (fun d st => Dict.insert d st 0) []

/-- One iteration of the tallying loop shared by `_generate_daily_report`
and `get_student_attendance_history`: bump the counter of the record's
status when that status has a counter, silently skip it otherwise. -/
def tallyStep (d : Dict Nat) (p : String × AttendanceRecord) : Dict Nat :=
  match Dict.find? d p.2.status with
  | some n => Dict.insert d p.2.status (n + 1)
  | none => d

/-- The tallying loop over the records. -/
def tally (recs : Dict AttendanceRecord) (d : Dict Nat) : Dict Nat :=
  recs.foldl tallyStep d

/-- The report value `_generate_daily_report(date_key)` computes (before
storing it in the report cache). -/
def freshReport (s : AttendanceSystem) (now date_key : String) : Report :=
  match Dict.find? s.attendance_records date_key with
  | none =>
    { date := date_key, generated_at := now,
      message := some "No records for this date",
      total_students := none, recorded_students := none,
      missing_records := none, stats := [], attendance_rate := none }
  | some records =>
    let total_students := s.students.length
    let recorded_students := records.length
    let status_counts := tally records (zeroCounts s.config.status_options)
    let attendance_rate : Nat :=
      if 0 < total_students then
        rate2 ((Dict.find? status_counts "present").getD 0) total_students
      else 0
    { date := date_key, generated_at := now, message := none,
      total_students := some total_students,
      recorded_students := some recorded_students,
      missing_records := some ((total_students : Int) - (recorded_students : Int)),
      stats := status_counts, attendance_rate := some attendance_rate }

/-- `_generate_daily_report(date_key)`: compute the report, store it under
`date_key` in the report cache, and return it. -/
def _generate_daily_report (s : AttendanceSystem) (now date_key : String) :
    AttendanceSystem × Report :=
  let report := freshReport s now date_key
  ({ s with reports := Dict.insert s.reports date_key report }, report)

/-- `get_attendance_report(date)`: serve the cached report when one exists,
otherwise generate (and cache) a fresh one. -/
def get_attendance_report (s : AttendanceSystem) (today now : String)
    (date : Option String) : AttendanceSystem × Report :=
  let date_key := get_attendance_date_key today date
  match Dict.find? s.reports date_key with
  | some r => (s, r)
  | none => _generate_daily_report s now date_key

/-- The dynamically-typed value of one `bulk_attendance` entry:
a bare status string, a dict (whose `status`/`notes` keys are read with
defaults `"present"` / `""`), or any other shape. -/
inductive BulkEntry where
  | str (status : String)
  | dict (d : Dict String)
  | other
deriving DecidableEq, Repr

/-- The body of the `bulk_attendance` loop for one `(student_id, data)`
entry: accumulate into `(state, success list, failed list)`. -/
def bulkStep (today now date_key : String)
    (acc : AttendanceSystem × List String × List String) :
    String × BulkEntry → AttendanceSystem × List String × List String
  | (student_id, BulkEntry.other) => (acc.1, acc.2.1, acc.2.2 ++ [student_id])
  | (student_id, BulkEntry.str status) =>
    let r := mark_attendance acc.1 today now student_id (some date_key) status ""
    if r.2 then (r.1, acc.2.1 ++ [student_id], acc.2.2)
    else (r.1, acc.2.1, acc.2.2 ++ [student_id])
  | (student_id, BulkEntry.dict d) =>
    let status := (Dict.find? d "status").getD "present"
    let notes := (Dict.find? d "notes").getD ""
    let r := mark_attendance acc.1 today now student_id (some date_key) status notes
    if r.2 then (r.1, acc.2.1 ++ [student_id], acc.2.2)
    else (r.1, acc.2.1, acc.2.2 ++ [student_id])

/-- `bulk_attendance(date, status_dict)`: an empty (or `None`) mapping
returns the empty results *early*, before the report-regeneration line;
otherwise every entry is delegated to `mark_attendance` and afterwards the
daily report for the date is regenerated unconditionally. -/
def bulk_attendance (s : AttendanceSystem) (today now : String)
    (date : Option String) (status_dict : List (String × BulkEntry)) :
    AttendanceSystem × List String × List String :=
  let date_key := get_attendance_date_key today date
  if status_dict.isEmpty then (s, [], [])
  else
    let res := status_dict.foldl (bulkStep today now date_key) (s, [], [])
    ((_generate_daily_report res.1 now date_key).1, res.2.1, res.2.2)

/-- The per-date-key body of the history scan in
`get_student_attendance_history`: the student's record on that key when the
key parses as a date, the date lies in `[sd, ed]`, and the student has a
record there; `none` (skip) otherwise. -/
def historyCond (student_id : String) (sd ed : Date) (dk : String)
    (recs : Dict AttendanceRecord) : Option AttendanceRecord :=
  match parseDate dk with
  | none => none
  | some d =>
    if dateLe sd d && dateLe d ed then Dict.find? recs student_id
    else none

/-- One iteration of the history scan, producing the `(date_key, record)`
entry the loop adds to `history` (or `none` when it skips). -/
def historyEntry (student_id : String) (sd ed : Date)
    (p : String × Dict AttendanceRecord) : Option (String × AttendanceRecord) :=
  match parseDate p.1 with
  | none => none
  | some d =>
    if dateLe sd d && dateLe d ed then
      (Dict.find? p.2 student_id).map (fun r => (p.1, r))
    else none

/-- The `history` dict built by the scan loop of
`get_student_attendance_history` over all attendance dates. -/
def historyFor (s : AttendanceSystem) (student_id : String) (sd ed : Date) :
    Dict AttendanceRecord :=
  s.attendance_records.filterMap (historyEntry student_id sd ed)

/-- The successful payload of `get_student_attendance_history`. -/
structure HistoryOk where
  student_id : String
  name : String
  start_date : String
  end_date : String
  total_days : Nat
  stats : Dict Nat
  attendance_rate : Nat
  history : Dict AttendanceRecord
deriving DecidableEq, Repr

/-- `get_student_attendance_history` returns either an error dict (unknown
student) or the history payload. -/
inductive HistoryResult where
  | error (msg : String)
  | ok (h : HistoryOk)
deriving DecidableEq, Repr

/-- The history payload built in the success branch of
`get_student_attendance_history`: the matched records, their zero-filled
per-status tally, and the rate over the matched days. -/
def historyPayload (s : AttendanceSystem) (student_id nm start_date end_date : String)
    (sd ed : Date) : HistoryOk :=
  { student_id := student_id, name := nm,
    start_date := start_date, end_date := end_date,
    total_days := (historyFor s student_id sd ed).length,
    stats := tally (historyFor s student_id sd ed) (zeroCounts s.config.status_options),
    attendance_rate :=
      if 0 < (historyFor s student_id sd ed).length then
        rate2
          ((Dict.find? (tally (historyFor s student_id sd ed)
              (zeroCounts s.config.status_options)) "present").getD 0)
          (historyFor s student_id sd ed).length
      else 0,
    history := historyFor s student_id sd ed }

/-- The tail of `get_student_attendance_history` once the student entry and
the textual bounds are fixed: parse both bounds (`none` models the
`ValueError` Python raises when either fails), read the student's `"name"`
(`none` models the `KeyError` when it is missing), and build the payload. -/
def historyAux (s : AttendanceSystem) (student_id : String) (info : Dict String)
    (start_date end_date : String) : Option HistoryResult :=
  match parseDate start_date, parseDate end_date with
  | some sd, some ed =>
    match Dict.find? info "name" with
    | none => none
    | some nm =>
      some (.ok (historyPayload s student_id nm start_date end_date sd ed))
  | _, _ => none

/-- `get_student_attendance_history(student_id, start_date, end_date)`.
`none` models an uncaught Python exception (`strptime` failing on the
caller-supplied bounds, or a student record with no `"name"` key).  Falsy
(`None` or empty) bounds are defaulted: end to today, start to 30 days
before the end.  Each attendance date key is parsed; unparseable keys are
silently skipped, and a parseable key is kept iff start ≤ date ≤ end and the
student has a record on it. -/
def get_student_attendance_history (s : AttendanceSystem) (today : String)
    (student_id : String) (start_date0 end_date0 : Option String) :
    Option HistoryResult :=
  match Dict.find? s.students student_id with
  | none => some (.error ("Student ID " ++ student_id ++ " not found."))
  | some info =>
    let end_date := match end_date0 with
      | none => today
      | some e => if e = "" then today else e
    let startGiven : Option String := match start_date0 with
      | none => none
      | some st => if st = "" then none else some st
    let startComputed : Option String := match startGiven with
      | some st => some st
      | none => (parseDate end_date).map (fun ed => formatDate (subDays ed 30))
    match startComputed with
    | none => none
    | some start_date => historyAux s student_id info start_date end_date

/-- `f"{year}-{month:02d}"`. -/
def monthStr (year month : Nat) : String :=
  toString year ++ "-" ++ pad2 month

/-- The `monthly_data` dict of `export_monthly_report`: the attendance
entries whose date key starts with the year-month prefix, in table order. -/
def monthlyData (s : AttendanceSystem) (year month : Nat) :
    Dict (Dict AttendanceRecord) :=
  s.attendance_records.filter (fun p => strStartsWith p.1 (monthStr year month))

/-- The `monthly_students` dict: every student id appearing in some record
of the month, mapped to its student entry (or a `"Unknown"`-named
placeholder), in first-appearance order. -/
def monthlyStudents (s : AttendanceSystem) (year month : Nat) : Dict (Dict String) :=
  (monthlyData s year month).foldl
    (fun acc p => p.2.foldl
      (fun acc2 q =>
        Dict.insert acc2 q.1 ((Dict.find? s.students q.1).getD [("name", "Unknown")]))
      acc)
    []

/-- One CSV data cell: the student's status on `date`, `"N/A"` when the
student has no record that day. -/
def csvCell (md : Dict (Dict AttendanceRecord)) (sid date : String) : String :=
  match Dict.find? md date with
  | some recs =>
    match Dict.find? recs sid with
    | some r => r.status
    | none => "N/A"
  | none => "N/A"

/-- `sorted(list(monthly_data.keys()))`: the month's record dates in
ascending (code-point) order. -/
def allDatesSorted (s : AttendanceSystem) (year month : Nat) : List String :=
  ((monthlyData s year month).map Prod.fst).insertionSort
    (fun a b => strLeB a b = true)

/-- The CSV header row: `Student ID`, `Name`, one column per date. -/
def csvHeader (s : AttendanceSystem) (year month : Nat) : List String :=
  "Student ID" :: "Name" :: allDatesSorted s year month

/-- The CSV data row written for one `monthly_students` entry. -/
def csvRow (s : AttendanceSystem) (year month : Nat)
    (p : String × Dict String) : List String :=
  p.1 :: ((Dict.find? p.2 "name").getD "Unknown")
    :: (allDatesSorted s year month).map
      (fun date => csvCell (monthlyData s year month) p.1 date)

/-- The rows `export_monthly_report` writes in CSV format: the header row
followed by one row per monthly student. -/
def csvRows (s : AttendanceSystem) (year month : Nat) : List (List String) :=
  csvHeader s year month
    :: (monthlyStudents s year month).map (csvRow s year month)

/-- Outcome of `export_monthly_report`: the written JSON document, the
written CSV rows, or the error string returned for an unsupported format
(in which case no file is written). -/
inductive ExportResult where
  | jsonFile (path period generated_at : String)
      (students : Dict (Dict String)) (attendance : Dict (Dict AttendanceRecord))
  | csvFile (path : String) (rows : List (List String))
  | error (msg : String)
deriving DecidableEq, Repr

/-- `export_monthly_report(year, month, format_type)`. -/
def export_monthly_report (s : AttendanceSystem) (now : String)
    (year month : Nat) (format_type : String) : ExportResult :=
  let month_str := monthStr year month
  if strToLower format_type = "json" then
    .jsonFile (s.data_directory ++ "/exports/attendance_" ++ month_str ++ ".json")
      month_str now (monthlyStudents s year month) (monthlyData s year month)
  else if strToLower format_type = "csv" then
    .csvFile (s.data_directory ++ "/exports/attendance_" ++ month_str ++ ".csv")
      (csvRows s year month)
  else
    .error ("Unsupported format: " ++ format_type)

/-- `update_system_config(config_updates)` applied to an update of the
`"status_options"` key (the configuration update the claims exercise):
overwrite that key and report success. -/
def update_system_config_status_options (s : AttendanceSystem)
    (opts : List String) : AttendanceSystem × Bool :=
  ({ s with config := { s.config with status_options := opts } }, true)

/-- A student entry as `add_student` stores it on 2025-01-01. -/
def demoStudent (nm : String) : Dict String :=
  [("name", nm), ("registration_date", "2025-01-01"), ("status", "active")]

/-- The constructor's default configuration. -/
def demoConfig : Config :=
  { status_options := ["present", "absent", "late", "excused"],
    default_status := "absent", auto_backup := true,
    backup_frequency_days := 7, last_backup := none }

/-- Records of 2025-01-02: S001 present, S002 absent, S003 unmarked. -/
def demoDay : Dict AttendanceRecord :=
  [("S001", { status := "present", timestamp := "2025-01-02 08:00:00", notes := "" }),
   ("S002", { status := "absent", timestamp := "2025-01-02 08:01:00", notes := "sick" })]

/-- Records of 2025-01-03: only S002, present. -/
def demoDay2 : Dict AttendanceRecord :=
  [("S002", { status := "present", timestamp := "2025-01-03 08:00:00", notes := "" })]

/-- A concrete ledger: three students, the two record days above, an empty
report cache, the default configuration. -/
def demoState : AttendanceSystem :=
  { data_directory := "attendance_data",
    students := [("S001", demoStudent "John Smith"),
                 ("S002", demoStudent "Emma Johnson"),
                 ("S003", demoStudent "Michael Brown")],
    attendance_records := [("2025-01-02", demoDay), ("2025-01-03", demoDay2)],
    reports := [],
    config := demoConfig }

/-- A stale cached report for 2025-01-02 whose numbers disagree with what a
regeneration would produce. -/
def staleReport : Report :=
  { date := "2025-01-02", generated_at := "2024-12-31 00:00:00",
    message := some "stale placeholder", total_students := some 99,
    recorded_students := some 0, missing_records := some 99,
    stats := [], attendance_rate := some 0 }

/-- `demoState` with the stale report cached for 2025-01-02. -/
def demoStateCached : AttendanceSystem :=
  { demoState with reports := [("2025-01-02", staleReport)] }

/-! ### Association-list lemmas -/

theorem Dict.find?_nil {α : Type} (k : String) :
    Dict.find? ([] : Dict α) k = none := rfl

theorem Dict.find?_cons {α : Type} (k1 : String) (v1 : α) (t : Dict α) (k : String) :
    Dict.find? ((k1, v1) :: t) k = if k1 = k then some v1 else Dict.find? t k := rfl

theorem Dict.insert_nil {α : Type} (k : String) (v : α) :
    Dict.insert ([] : Dict α) k v = [(k, v)] := rfl

theorem Dict.insert_cons {α : Type} (k1 : String) (v1 : α) (t : Dict α) (k : String) (v : α) :
    Dict.insert ((k1, v1) :: t) k v
      = if k1 = k then (k, v) :: t else (k1, v1) :: Dict.insert t k v := rfl

theorem Dict.find?_insert_self {α : Type} (d : Dict α) (k : String) (v : α) :
    Dict.find? (Dict.insert d k v) k = some v := by
  induction d with
  | nil => simp [Dict.insert_nil, Dict.find?_cons, Dict.find?_nil]
  | cons p t ih =>
    obtain ⟨k1, v1⟩ := p
    rw [Dict.insert_cons]
    by_cases h : k1 = k
    · rw [if_pos h, Dict.find?_cons, if_pos rfl]
    · rw [if_neg h, Dict.find?_cons, if_neg h, ih]

theorem Dict.find?_insert_ne {α : Type} (d : Dict α) (k k' : String) (v : α)
    (h : k' ≠ k) : Dict.find? (Dict.insert d k v) k' = Dict.find? d k' := by
  induction d with
  | nil =>
    rw [Dict.insert_nil, Dict.find?_cons, if_neg (Ne.symm h)]
  | cons p t ih =>
    obtain ⟨k1, v1⟩ := p
    rw [Dict.insert_cons]
    by_cases h1 : k1 = k
    · subst h1
      rw [if_pos rfl, Dict.find?_cons, if_neg (Ne.symm h), Dict.find?_cons,
        if_neg (Ne.symm h)]
    · rw [if_neg h1, Dict.find?_cons, Dict.find?_cons, ih]

theorem Dict.find?_some_mem {α : Type} {d : Dict α} {k : String} {v : α}
    (h : Dict.find? d k = some v) : (k, v) ∈ d := by
  induction d with
  | nil => exact absurd h (by rw [Dict.find?_nil]; exact fun e => Option.noConfusion e)
  | cons p t ih =>
    obtain ⟨k1, v1⟩ := p
    rw [Dict.find?_cons] at h
    by_cases h1 : k1 = k
    · rw [if_pos h1] at h
      subst h1
      cases h
      exact List.mem_cons_self _ _
    · rw [if_neg h1] at h
      exact List.mem_cons_of_mem _ (ih h)

theorem Dict.find?_eq_none_of_not_mem_keys {α : Type} {d : Dict α} {k : String}
    (h : k ∉ Dict.keys d) : Dict.find? d k = none := by
  induction d with
  | nil => rfl
  | cons p t ih =>
    obtain ⟨k1, v1⟩ := p
    have h1 : k1 ≠ k := fun e => h (by rw [e]; exact List.mem_cons_self _ _)
    have h2 : k ∉ Dict.keys t := fun e => h (List.mem_cons_of_mem _ e)
    rw [Dict.find?_cons, if_neg h1, ih h2]

theorem Dict.find?_isSome_of_mem_keys {α : Type} {d : Dict α} {k : String}
    (h : k ∈ Dict.keys d) : ∃ v, Dict.find? d k = some v := by
  induction d with
  | nil => exact absurd h (List.not_mem_nil k)
  | cons p t ih =>
    obtain ⟨k1, v1⟩ := p
    by_cases h1 : k1 = k
    · exact ⟨v1, by rw [Dict.find?_cons, if_pos h1]⟩
    · have h2 : k ∈ Dict.keys t := by
        rcases List.mem_cons.mp h with h' | h'
        · exact absurd h'.symm h1
        · exact h'
      obtain ⟨v, hv⟩ := ih h2
      exact ⟨v, by rw [Dict.find?_cons, if_neg h1, hv]⟩

theorem Dict.mem_keys_insert {α : Type} (d : Dict α) (k a : String) (v : α) :
    a ∈ Dict.keys (Dict.insert d k v) ↔ a = k ∨ a ∈ Dict.keys d := by
  induction d with
  | nil =>
    rw [Dict.insert_nil]
    simp [Dict.keys]
  | cons p t ih =>
    obtain ⟨k1, v1⟩ := p
    rw [Dict.insert_cons]
    by_cases h1 : k1 = k
    · subst h1
      simp [Dict.keys]
    · rw [if_neg h1]
      show a ∈ k1 :: Dict.keys (Dict.insert t k v) ↔ a = k ∨ a ∈ k1 :: Dict.keys t
      rw [List.mem_cons, List.mem_cons, ih]
      tauto

theorem Dict.find?_eq_none_of_keys_ne {α : Type} {d : Dict α} {k : String}
    (h : ∀ p ∈ d, p.1 ≠ k) : Dict.find? d k = none := by
  induction d with
  | nil => rfl
  | cons p t ih =>
    obtain ⟨k1, v1⟩ := p
    rw [Dict.find?_cons, if_neg (h (k1, v1) (List.mem_cons_self _ _)),
      ih (fun q hq => h q (List.mem_cons_of_mem _ hq))]

/-! ### Fold, tally and filterMap lemmas -/

theorem find?_foldl_insert_zero (opts : List String) (d : Dict Nat) (k : String) :
    Dict.find? (opts.foldl (fun d st => Dict.insert d st 0) d) k
      = if k ∈ opts then some 0 else Dict.find? d k := by
  induction opts generalizing d with
  | nil => simp
  | cons st rest ih =>
    rw [List.foldl_cons, ih]
    by_cases h1 : k ∈ rest
    · simp [h1]
    · by_cases h2 : st = k
      · subst h2
        simp [h1, Dict.find?_insert_self]
      · simp [h1, h2, Ne.symm h2, Dict.find?_insert_ne _ _ _ _ (Ne.symm h2)]

theorem zeroCounts_find? (opts : List String) (k : String) :
    Dict.find? (zeroCounts opts) k = if k ∈ opts then some 0 else none := by
  rw [zeroCounts, find?_foldl_insert_zero]
  rfl

theorem find?_tallyStep_self (d : Dict Nat) (p : String × AttendanceRecord)
    (k : String) (hs : p.2.status = k) :
    Dict.find? (tallyStep d p) k = (Dict.find? d k).map (fun n => n + 1) := by
  rw [tallyStep, hs]
  cases hd : Dict.find? d k with
  | none =>
    show Dict.find? d k = none
    exact hd
  | some n =>
    show Dict.find? (Dict.insert d k (n + 1)) k = some (n + 1)
    exact Dict.find?_insert_self d k (n + 1)

theorem find?_tallyStep_ne (d : Dict Nat) (p : String × AttendanceRecord)
    (k : String) (hs : p.2.status ≠ k) :
    Dict.find? (tallyStep d p) k = Dict.find? d k := by
  rw [tallyStep]
  cases hd : Dict.find? d p.2.status with
  | none => rfl
  | some n =>
    show Dict.find? (Dict.insert d p.2.status (n + 1)) k = Dict.find? d k
    exact Dict.find?_insert_ne d p.2.status k (n + 1) (Ne.symm hs)

theorem tally_find? (recs : Dict AttendanceRecord) (d : Dict Nat) (k : String) :
    Dict.find? (tally recs d) k
      = (Dict.find? d k).map
          (fun n => n + recs.countP (fun p => p.2.status == k)) := by
  induction recs generalizing d with
  | nil =>
    show Dict.find? d k
      = (Dict.find? d k).map
          (fun n => n + List.countP (fun p : String × AttendanceRecord => p.2.status == k) [])
    cases Dict.find? d k <;> rfl
  | cons p t ih =>
    have h0 : tally (p :: t) d = tally t (tallyStep d p) := rfl
    rw [h0, ih]
    by_cases hs : p.2.status = k
    · rw [find?_tallyStep_self d p k hs]
      cases hd : Dict.find? d k with
      | none => rfl
      | some n =>
        simp only [Option.map_some']
        congr 1
        rw [List.countP_cons_of_pos _ _ (by simp [hs])]
        omega
    · rw [find?_tallyStep_ne d p k hs,
        List.countP_cons_of_neg _ _ (by simp [hs])]

theorem find?_foldl_insert_not_mem {α : Type} (l : Dict α) (d : Dict α) (k : String)
    (h : k ∉ Dict.keys l) :
    Dict.find? (l.foldl (fun d p => Dict.insert d p.1 p.2) d) k = Dict.find? d k := by
  induction l generalizing d with
  | nil => rfl
  | cons p t ih =>
    have h1 : p.1 ≠ k := fun e => h (e ▸ List.mem_cons_self _ _)
    have h2 : k ∉ Dict.keys t := fun e => h (List.mem_cons_of_mem _ e)
    rw [List.foldl_cons, ih _ h2, Dict.find?_insert_ne _ _ _ _ (Ne.symm h1)]

theorem find?_foldl_insert_mem {α : Type} (l : Dict α) (d : Dict α) (k : String) (v : α)
    (hnd : (l.map Prod.fst).Nodup) (h : Dict.find? l k = some v) :
    Dict.find? (l.foldl (fun d p => Dict.insert d p.1 p.2) d) k = some v := by
  induction l generalizing d with
  | nil => cases h
  | cons p t ih =>
    obtain ⟨k1, v1⟩ := p
    rw [List.map_cons, List.nodup_cons] at hnd
    rw [List.foldl_cons]
    by_cases h1 : k1 = k
    · subst h1
      rw [Dict.find?_cons, if_pos rfl] at h
      cases h
      rw [find?_foldl_insert_not_mem t _ k1 hnd.1, Dict.find?_insert_self]
    · rw [Dict.find?_cons, if_neg h1] at h
      exact ih _ hnd.2 h

theorem Dict.find?_filterMap {α β : Type} (l : Dict α) (g : String → α → Option β)
    (k : String) (hnd : (l.map Prod.fst).Nodup) :
    Dict.find? (l.filterMap (fun p => (g p.1 p.2).map (fun b => (p.1, b)))) k
      = (Dict.find? l k).bind (g k) := by
  induction l with
  | nil => rfl
  | cons p t ih =>
    obtain ⟨k1, v1⟩ := p
    rw [List.map_cons, List.nodup_cons] at hnd
    rw [List.filterMap_cons]
    by_cases h1 : k1 = k
    · subst h1
      rw [Dict.find?_cons, if_pos rfl]
      cases hg : g k1 v1 with
      | none =>
        simp only [hg, Option.map_none', Option.some_bind]
        apply Dict.find?_eq_none_of_keys_ne
        intro q hq
        obtain ⟨p', hp', hq'⟩ := List.mem_filterMap.mp hq
        obtain ⟨b, _, hb⟩ := Option.map_eq_some'.mp hq'
        intro e
        have hpk : p'.1 = k1 := by rw [← hb] at e; exact e
        have hmem : k1 ∈ List.map Prod.fst t := by
          rw [← hpk]
          exact List.mem_map_of_mem Prod.fst hp'
        exact hnd.1 hmem
      | some b =>
        simp only [hg, Option.map_some', Option.some_bind]
        rw [Dict.find?_cons, if_pos rfl]
    · cases hg : g k1 v1 with
      | none =>
        simp only [hg, Option.map_none']
        rw [Dict.find?_cons, if_neg h1]
        exact ih hnd.2
      | some b =>
        simp only [hg, Option.map_some']
        rw [Dict.find?_cons, if_neg h1, Dict.find?_cons, if_neg h1]
        exact ih hnd.2

/-! ### Claim theorems -/

/-- Claim C1: marking attendance for an unknown student id, or with a status
outside the currently configured allowed set, returns a `false` flag (no
exception) and leaves the entire state — in particular every attendance
record — unchanged; conversely, once the configuration's allowed set is
updated to one containing the status, the identical call for an existing
student succeeds. -/
theorem C1_mark_attendance_validation (s : AttendanceSystem) (today now : String)
    (sid : String) (date : Option String) (status notes : String) :
    ((Dict.find? s.students sid = none ∨ status ∉ s.config.status_options) →
      mark_attendance s today now sid date status notes = (s, false))
    ∧ ((Dict.find? s.students sid).isSome →
        ∀ opts, status ∈ opts →
          (mark_attendance (update_system_config_status_options s opts).1
            today now sid date status notes).2 = true) := by
  constructor
  · rintro (h | h)
    · rw [mark_attendance]
      simp [h]
    · rw [mark_attendance]
      by_cases h1 : (Dict.find? s.students sid).isNone
      · simp [h1]
      · simp [h1, h]
  · intro hs opts hopts
    rw [mark_attendance]
    simp only [update_system_config_status_options]
    have h1 : (Dict.find? s.students sid).isNone = false := by
      cases hfind : Dict.find? s.students sid with
      | none => rw [hfind] at hs; cases hs
      | some v => rfl
    simp [h1, hopts]

/-- Claim C1 witness: on the demo ledger, marking the unknown id `S999` fails
and changes nothing, and marking `S001` with the initially disallowed status
`"sick"` succeeds after `"sick"` is added to the configured set. -/
theorem C1_witness :
    mark_attendance demoState "2025-01-02" "2025-01-02 09:00:00" "S999"
        (some "2025-01-02") "present" "" = (demoState, false)
    ∧ (mark_attendance
        (update_system_config_status_options demoState
          ["present", "absent", "late", "excused", "sick"]).1
        "2025-01-02" "2025-01-02 09:00:00" "S001" (some "2025-01-02") "sick" "").2
      = true := by
  constructor
  · exact (C1_mark_attendance_validation demoState "2025-01-02" "2025-01-02 09:00:00"
      "S999" (some "2025-01-02") "present" "").1 (Or.inl (by decide))
  · exact (C1_mark_attendance_validation demoState "2025-01-02" "2025-01-02 09:00:00"
      "S001" (some "2025-01-02") "sick" "").2 (by decide)
      ["present", "absent", "late", "excused", "sick"] (by decide)

/-- Claim C2: for a date that has attendance records, the generated daily
report zero-initializes a counter for exactly the configured statuses and
tallies each record whose status is configured (others are silently
excluded), reports `missing_records = total − recorded`, and computes the
attendance rate as present-count over total students times 100 rounded to
two decimals (in hundredths, see `rate2`), or `0` with no students. -/
theorem C2_daily_report (s : AttendanceSystem) (now date_key : String)
    (recs : Dict AttendanceRecord)
    (h : Dict.find? s.attendance_records date_key = some recs) :
    (∀ st, st ∈ s.config.status_options →
        Dict.find? (freshReport s now date_key).stats st
          = some (recs.countP (fun p => p.2.status == st)))
    ∧ (∀ st, st ∉ s.config.status_options →
        Dict.find? (freshReport s now date_key).stats st = none)
    ∧ (freshReport s now date_key).total_students = some s.students.length
    ∧ (freshReport s now date_key).recorded_students = some recs.length
    ∧ (freshReport s now date_key).missing_records
        = some ((s.students.length : Int) - (recs.length : Int))
    ∧ (freshReport s now date_key).attendance_rate
        = some (if 0 < s.students.length
            then rate2
              (if "present" ∈ s.config.status_options
                then recs.countP (fun p => p.2.status == "present") else 0)
              s.students.length
            else 0) := by
  have hfr : freshReport s now date_key
      = { date := date_key, generated_at := now, message := none,
          total_students := some s.students.length,
          recorded_students := some recs.length,
          missing_records := some ((s.students.length : Int) - (recs.length : Int)),
          stats := tally recs (zeroCounts s.config.status_options),
          attendance_rate := some (if 0 < s.students.length
            then rate2
              ((Dict.find? (tally recs (zeroCounts s.config.status_options))
                "present").getD 0)
              s.students.length
            else 0) } := by
    rw [freshReport, h]
  rw [hfr]
  refine ⟨?_, ?_, rfl, rfl, rfl, ?_⟩
  · intro st hst
    simp only [tally_find?, zeroCounts_find?, if_pos hst, Option.map_some']
    rw [Nat.zero_add]
  · intro st hst
    simp only [tally_find?, zeroCounts_find?, if_neg hst, Option.map_none']
  · by_cases hp : "present" ∈ s.config.status_options
    · simp only [tally_find?, zeroCounts_find?, if_pos hp, Option.map_some',
        Option.getD_some, Nat.zero_add]
    · simp only [tally_find?, zeroCounts_find?, if_neg hp, Option.map_none',
        Option.getD_none]

/-- Claim C2 witness: on the demo ledger (3 students; on 2025-01-02 one
`present`, one `absent`, one unmarked) the report shows total 3, recorded 2,
missing 1 and rate 33.33 (3333 hundredths). -/
theorem C2_witness :
    (freshReport demoState "2025-01-02 20:00:00" "2025-01-02").total_students = some 3
    ∧ (freshReport demoState "2025-01-02 20:00:00" "2025-01-02").recorded_students = some 2
    ∧ (freshReport demoState "2025-01-02 20:00:00" "2025-01-02").missing_records = some 1
    ∧ (freshReport demoState "2025-01-02 20:00:00" "2025-01-02").attendance_rate
        = some 3333 := by
  have h := C2_daily_report demoState "2025-01-02 20:00:00" "2025-01-02" demoDay
    (by decide)
  exact ⟨h.2.2.1.trans (by decide), h.2.2.2.1.trans (by decide),
    h.2.2.2.2.1.trans (by decide), h.2.2.2.2.2.trans (by decide)⟩

/-- Claim C3: once a report is cached for a date, a single mark-attendance
call for that date leaves the report cache entirely unchanged, and a
subsequent report request for that date returns exactly the cached report
(and does not change the state), however stale it is. -/
theorem C3_cached_report_stable (s : AttendanceSystem) (today now now2 : String)
    (date : Option String) (r : Report) (sid status notes : String)
    (h : Dict.find? s.reports (get_attendance_date_key today date) = some r) :
    (mark_attendance s today now sid date status notes).1.reports = s.reports
    ∧ get_attendance_report (mark_attendance s today now sid date status notes).1
        today now2 date
      = ((mark_attendance s today now sid date status notes).1, r) := by
  have hrep : (mark_attendance s today now sid date status notes).1.reports
      = s.reports := by
    rw [mark_attendance]
    by_cases h1 : (Dict.find? s.students sid).isNone
    · simp [h1]
    · by_cases h2 : status ∈ s.config.status_options
      · simp [h1, h2]
      · simp [h1, h2]
  refine ⟨hrep, ?_⟩
  rw [get_attendance_report, hrep, h]

/-- Claim C3 witness: with the stale report cached for 2025-01-02, marking
`S003` late on that date leaves the cache unchanged and the report request
still returns the stale report. -/
theorem C3_witness :
    (mark_attendance demoStateCached "2025-01-02" "t2" "S003" (some "2025-01-02")
        "late" "bus").1.reports = demoStateCached.reports
    ∧ get_attendance_report (mark_attendance demoStateCached "2025-01-02" "t2" "S003"
        (some "2025-01-02") "late" "bus").1 "2025-01-02" "t3" (some "2025-01-02")
      = ((mark_attendance demoStateCached "2025-01-02" "t2" "S003"
          (some "2025-01-02") "late" "bus").1, staleReport) := by
  have h := C3_cached_report_stable demoStateCached "2025-01-02" "t2" "t3"
    (some "2025-01-02") staleReport "S003" "late" "bus" (by decide)
  exact ⟨h.1, h.2⟩

/-- Claim C6: adding a student whose id already exists fails with `false` and
leaves the state — hence the first call's stored data — unchanged, so a
second add of the same id with any arguments fails; on a successful first
add the stored entry gives caller-supplied extra attributes precedence over
the built-in fields when keys collide (and keeps the built-in `name` when
they do not). -/
theorem C6_add_student (s : AttendanceSystem) (today sid nm : String)
    (extra : Dict String) :
    ((Dict.find? s.students sid).isSome →
      add_student s today sid nm extra = (s, false))
    ∧ (Dict.find? s.students sid = none →
        (add_student s today sid nm extra).2 = true
        ∧ (∀ today2 nm2 extra2,
            add_student (add_student s today sid nm extra).1 today2 sid nm2 extra2
              = ((add_student s today sid nm extra).1, false))
        ∧ ∃ d, Dict.find? (add_student s today sid nm extra).1.students sid = some d
            ∧ ((extra.map Prod.fst).Nodup →
                ∀ k v, Dict.find? extra k = some v → Dict.find? d k = some v)
            ∧ (Dict.find? extra "name" = none →
                Dict.find? d "name" = some nm)) := by
  constructor
  · intro h
    rw [add_student]
    simp [h]
  · intro h
    have h0 : (Dict.find? s.students sid).isSome = false := by rw [h]; rfl
    have hstu : (add_student s today sid nm extra).1.students
        = Dict.insert s.students sid
            (extra.foldl (fun d p => Dict.insert d p.1 p.2)
              [("name", nm), ("registration_date", today), ("status", "active")]) := by
      rw [add_student]
      simp [h0]
    have hflag : (add_student s today sid nm extra).2 = true := by
      rw [add_student]
      simp [h0]
    have hfind : Dict.find? (add_student s today sid nm extra).1.students sid
        = some (extra.foldl (fun d p => Dict.insert d p.1 p.2)
            [("name", nm), ("registration_date", today), ("status", "active")]) := by
      rw [hstu]
      exact Dict.find?_insert_self _ _ _
    refine ⟨hflag, ?_, ?_⟩
    · intro today2 nm2 extra2
      rw [add_student]
      simp [hfind]
    · refine ⟨extra.foldl (fun d p => Dict.insert d p.1 p.2)
        [("name", nm), ("registration_date", today), ("status", "active")],
        hfind, ?_, ?_⟩
      · intro hnd k v hk
        exact find?_foldl_insert_mem extra _ k v hnd hk
      · intro hname
        have hnm : "name" ∉ Dict.keys extra := by
          intro hmem
          obtain ⟨v, hv⟩ := Dict.find?_isSome_of_mem_keys hmem
          rw [hname] at hv
          cases hv
        rw [find?_foldl_insert_not_mem extra _ "name" hnm]
        rfl

/-- Claim C6 witness: re-adding `S001` fails and changes nothing; adding the
fresh id `S004` succeeds, with the extra attribute `name = "Override"`
taking precedence over the built-in name. -/
theorem C6_witness :
    add_student demoState "2025-01-05" "S001" "Duplicate" [] = (demoState, false)
    ∧ (add_student demoState "2025-01-05" "S004" "Base Name"
        [("name", "Override"), ("grade", "10A")]).2 = true
    ∧ ∃ d, Dict.find? (add_student demoState "2025-01-05" "S004" "Base Name"
          [("name", "Override"), ("grade", "10A")]).1.students "S004" = some d
        ∧ Dict.find? d "name" = some "Override" := by
  have h1 := C6_add_student demoState "2025-01-05" "S001" "Duplicate" []
  have h2 := C6_add_student demoState "2025-01-05" "S004" "Base Name"
    [("name", "Override"), ("grade", "10A")]
  refine ⟨h1.1 (by decide), (h2.2 (by decide)).1, ?_⟩
  obtain ⟨d, hd, hprec, _⟩ := (h2.2 (by decide)).2.2
  exact ⟨d, hd, hprec (by decide) "name" "Override" (by decide)⟩

/-- Claim C8: for any format string whose lower-casing is neither `json` nor
`csv`, the monthly export returns the descriptive error string (no file
value is produced and nothing is raised). -/
theorem C8_export_unsupported_format (s : AttendanceSystem) (now : String)
    (year month : Nat) (fmt : String)
    (h1 : strToLower fmt ≠ "json") (h2 : strToLower fmt ≠ "csv") :
    export_monthly_report s now year month fmt
      = ExportResult.error ("Unsupported format: " ++ fmt) := by
  rw [export_monthly_report]
  simp [h1, h2]

/-- Claim C8 witness: exporting with format `xml` returns the error string
and no file. -/
theorem C8_witness :
    export_monthly_report demoState "2025-02-01 00:00:00" 2025 1 "xml"
      = ExportResult.error "Unsupported format: xml" := by
  exact (C8_export_unsupported_format demoState "2025-02-01 00:00:00" 2025 1 "xml"
    (by decide) (by decide)).trans (by decide)

/-! ### History and report-generation lemmas -/

theorem historyEntry_eq (student_id : String) (sd ed : Date)
    (p : String × Dict AttendanceRecord) :
    historyEntry student_id sd ed p
      = (historyCond student_id sd ed p.1 p.2).map (fun r => (p.1, r)) := by
  rw [historyEntry, historyCond]
  split
  · rfl
  · split
    · rfl
    · rfl

theorem historyFor_find? (s : AttendanceSystem) (sid : String) (sd ed : Date)
    (dk : String) (hnd : (s.attendance_records.map Prod.fst).Nodup) :
    Dict.find? (historyFor s sid sd ed) dk
      = (Dict.find? s.attendance_records dk).bind (historyCond sid sd ed dk) := by
  rw [historyFor, funext (historyEntry_eq sid sd ed)]
  exact Dict.find?_filterMap s.attendance_records (historyCond sid sd ed) dk hnd

theorem historyFor_key_parses (s : AttendanceSystem) (sid : String) (sd ed : Date)
    (q : String × AttendanceRecord) (hq : q ∈ historyFor s sid sd ed) :
    ∃ dq, parseDate q.1 = some dq := by
  obtain ⟨p', hp', hmatch⟩ := List.mem_filterMap.mp hq
  rw [historyEntry_eq] at hmatch
  obtain ⟨r, hr, hqr⟩ := Option.map_eq_some'.mp hmatch
  rw [historyCond] at hr
  cases hpd : parseDate p'.1 with
  | none => rw [hpd] at hr; cases hr
  | some dq =>
    rw [hpd] at hr
    refine ⟨dq, ?_⟩
    rw [← hqr]
    exact hpd

theorem historyAux_shape (s : AttendanceSystem) (student_id : String)
    (info : Dict String) (start_date end_date : String) (h : HistoryOk)
    (hq : historyAux s student_id info start_date end_date
        = some (HistoryResult.ok h)) :
    ∃ sd ed, h.history = historyFor s student_id sd ed := by
  rw [historyAux] at hq
  repeat' split at hq
  all_goals
    first
    | (simp only [Option.some.injEq, HistoryResult.ok.injEq] at hq
       exact ⟨_, _, congrArg HistoryOk.history hq.symm⟩)
    | simp at hq

theorem historyStart_shape (s : AttendanceSystem) (student_id : String)
    (info : Dict String) (o : Option String) (end_date : String) (h : HistoryOk)
    (hq : (match o with
            | none => none
            | some start_date => historyAux s student_id info start_date end_date)
        = some (HistoryResult.ok h)) :
    ∃ sd ed, h.history = historyFor s student_id sd ed := by
  cases o with
  | none => exact Option.noConfusion hq
  | some start_date => exact historyAux_shape _ _ _ _ _ _ hq

theorem freshReport_stamp (s : AttendanceSystem) (now date_key : String) :
    (freshReport s now date_key).generated_at = now
    ∧ (freshReport s now date_key).date = date_key := by
  rw [freshReport]
  cases Dict.find? s.attendance_records date_key <;> exact ⟨rfl, rfl⟩

/-- Claim C4 counterexample: bulk attendance with an **empty** mapping (the
claim says "including an empty mapping") returns early and does not
regenerate the cached daily report: the stale cached report for the date
survives unchanged, although a regeneration would have produced a different
report. -/
theorem C4_counterexample :
    Dict.find? (bulk_attendance demoStateCached "2025-01-02" "2025-01-02 21:00:00"
        (some "2025-01-02") []).1.reports "2025-01-02" = some staleReport
    ∧ staleReport
        ≠ freshReport demoStateCached "2025-01-02 21:00:00" "2025-01-02" := by
  decide

/-- Claim C4 (amended): for every **nonempty** mapping — including one where
every entry fails — bulk attendance, after processing all entries,
regenerates the daily report from the post-processing state and stores it in
the report cache under the date key, replacing any previously cached report;
the stored report carries this call's generation timestamp and date.  (With
an empty mapping the call returns early and regenerates nothing.) -/
theorem C4_bulk_regenerates (s : AttendanceSystem) (today now : String)
    (date : Option String) (status_dict : List (String × BulkEntry))
    (h : status_dict ≠ []) :
    Dict.find? (bulk_attendance s today now date status_dict).1.reports
        (get_attendance_date_key today date)
      = some (freshReport
          (status_dict.foldl
            (bulkStep today now (get_attendance_date_key today date)) (s, [], [])).1
          now (get_attendance_date_key today date))
    ∧ ∀ r, Dict.find? (bulk_attendance s today now date status_dict).1.reports
          (get_attendance_date_key today date) = some r →
        r.generated_at = now ∧ r.date = get_attendance_date_key today date := by
  have hne : status_dict.isEmpty = false := by
    cases status_dict with
    | nil => exact absurd rfl h
    | cons a t => rfl
  have hbulk : (bulk_attendance s today now date status_dict).1.reports
      = Dict.insert
          (status_dict.foldl
            (bulkStep today now (get_attendance_date_key today date)) (s, [], [])).1.reports
          (get_attendance_date_key today date)
          (freshReport
            (status_dict.foldl
              (bulkStep today now (get_attendance_date_key today date)) (s, [], [])).1
            now (get_attendance_date_key today date)) := by
    rw [bulk_attendance]
    simp [hne, _generate_daily_report]
  constructor
  · rw [hbulk]
    exact Dict.find?_insert_self _ _ _
  · intro r hr
    rw [hbulk, Dict.find?_insert_self] at hr
    cases hr
    exact freshReport_stamp _ _ _

/-- Claim C4 witness: a nonempty bulk call whose single entry fails (unknown
student id) still replaces the stale cached report for the date with a
freshly generated one stamped by this call. -/
theorem C4_witness :
    ∃ r, Dict.find? (bulk_attendance demoStateCached "2025-01-02" "t4"
          (some "2025-01-02") [("S999", BulkEntry.str "present")]).1.reports
        "2025-01-02" = some r
      ∧ r.generated_at = "t4" ∧ r ≠ staleReport := by
  have h := C4_bulk_regenerates demoStateCached "2025-01-02" "t4" (some "2025-01-02")
    [("S999", BulkEntry.str "present")] (by decide)
  exact ⟨_, h.1, (h.2 _ h.1).1, by decide⟩

/-- Claim C10: `mark_attendance` performs no validation of the date argument:
for an existing student and a currently allowed status it succeeds for an
arbitrary date string (parseable or not), storing the record under that
literal string as key; and every record stored under an unparseable date key
is excluded from the history of every student-history query that returns a
history payload. -/
theorem C10_no_date_validation (s : AttendanceSystem)
    (today now sid d status notes : String) (info : Dict String)
    (hstud : Dict.find? s.students sid = some info)
    (hst : status ∈ s.config.status_options) :
    ((mark_attendance s today now sid (some d) status notes).2 = true
      ∧ ∃ day, Dict.find?
            (mark_attendance s today now sid (some d) status notes).1.attendance_records d
            = some day
          ∧ Dict.find? day sid
            = some { status := status, timestamp := now, notes := notes })
    ∧ (∀ (s2 : AttendanceSystem) (today2 sid2 : String) (sd0 ed0 : Option String)
          (h : HistoryOk),
        get_student_attendance_history s2 today2 sid2 sd0 ed0
            = some (HistoryResult.ok h) →
        ∀ dk, parseDate dk = none → Dict.find? h.history dk = none) := by
  constructor
  · have h0 : (Dict.find? s.students sid).isNone = false := by rw [hstud]; rfl
    have hflag : (mark_attendance s today now sid (some d) status notes).2 = true := by
      rw [mark_attendance]
      simp [h0, hst]
    have hrec : (mark_attendance s today now sid (some d) status notes).1.attendance_records
        = Dict.insert s.attendance_records d
            (Dict.insert ((Dict.find? s.attendance_records d).getD []) sid
              { status := status, timestamp := now, notes := notes }) := by
      rw [mark_attendance]
      simp [h0, hst, get_attendance_date_key]
    refine ⟨hflag,
      Dict.insert ((Dict.find? s.attendance_records d).getD []) sid
        { status := status, timestamp := now, notes := notes }, ?_, ?_⟩
    · rw [hrec]
      exact Dict.find?_insert_self _ _ _
    · exact Dict.find?_insert_self _ _ _
  · intro s2 today2 sid2 sd0 ed0 h hq dk hdk
    have hshape : ∃ sd ed, h.history = historyFor s2 sid2 sd ed := by
      rw [get_student_attendance_history.eq_def] at hq
      repeat' split at hq
      all_goals
        first
        | exact historyAux_shape _ _ _ _ _ _ hq
        | exact historyStart_shape _ _ _ _ _ _ hq
        | simp at hq
    obtain ⟨sd, ed, hh⟩ := hshape
    rw [hh]
    apply Dict.find?_eq_none_of_keys_ne
    intro q hqmem e
    obtain ⟨dq, hdq⟩ := historyFor_key_parses s2 sid2 sd ed q hqmem
    rw [e, hdk] at hdq
    cases hdq

/-- Claim C10 witness: marking `S001` on the unparseable date string
`not-a-date` succeeds and stores the record under that literal key, and a
history query that returns a payload never includes the key `not-a-date`. -/
theorem C10_witness :
    ((mark_attendance demoState "2025-01-02" "ts" "S001" (some "not-a-date")
        "present" "x").2 = true
      ∧ ∃ day, Dict.find? (mark_attendance demoState "2025-01-02" "ts" "S001"
            (some "not-a-date") "present" "x").1.attendance_records "not-a-date"
            = some day
          ∧ Dict.find? day "S001"
            = some { status := "present", timestamp := "ts", notes := "x" })
    ∧ (∀ h : HistoryOk,
        get_student_attendance_history demoState "2025-01-10" "S001"
            (some "2025-01-01") (some "2025-01-31") = some (HistoryResult.ok h) →
        Dict.find? h.history "not-a-date" = none) := by
  have h := C10_no_date_validation demoState "2025-01-02" "ts" "S001" "not-a-date"
    "present" "x" (demoStudent "John Smith") (by decide) (by decide)
  exact ⟨h.1, fun hh hq => h.2 demoState "2025-01-10" "S001" (some "2025-01-01")
    (some "2025-01-31") hh hq "not-a-date" (by decide)⟩

/-! ### Marking and bulk-loop lemmas -/

theorem mark_attendance_fail (s : AttendanceSystem) (today now sid : String)
    (date : Option String) (status notes : String)
    (h : Dict.find? s.students sid = none ∨ status ∉ s.config.status_options) :
    mark_attendance s today now sid date status notes = (s, false) := by
  rcases h with h | h
  · rw [mark_attendance]
    simp [h]
  · rw [mark_attendance]
    by_cases h1 : (Dict.find? s.students sid).isNone
    · simp [h1]
    · simp [h1, h]

theorem mark_attendance_records (s : AttendanceSystem) (today now sid : String)
    (date : Option String) (status notes : String)
    (h0 : (Dict.find? s.students sid).isNone = false)
    (h1 : status ∈ s.config.status_options) :
    (mark_attendance s today now sid date status notes).1.attendance_records
      = Dict.insert s.attendance_records (get_attendance_date_key today date)
          (Dict.insert
            ((Dict.find? s.attendance_records (get_attendance_date_key today date)).getD [])
            sid { status := status, timestamp := now, notes := notes }) := by
  rw [mark_attendance]
  simp [h0, h1]

theorem mark_attendance_preserves_other (s : AttendanceSystem) (today now : String)
    (sid' : String) (date : Option String) (status notes : String) (dk sid : String)
    (hne : sid ≠ sid') :
    Dict.find? ((Dict.find?
        (mark_attendance s today now sid' date status notes).1.attendance_records dk).getD [])
      sid
      = Dict.find? ((Dict.find? s.attendance_records dk).getD []) sid := by
  by_cases h0 : (Dict.find? s.students sid').isNone
  · rw [mark_attendance_fail s today now sid' date status notes
      (Or.inl (Option.isNone_iff_eq_none.mp h0))]
  · by_cases h1 : status ∈ s.config.status_options
    · rw [mark_attendance_records s today now sid' date status notes
        (Bool.not_eq_true _ ▸ (by simpa using h0)) h1]
      by_cases h3 : get_attendance_date_key today date = dk
      · rw [h3, Dict.find?_insert_self, Option.getD_some,
          Dict.find?_insert_ne _ _ _ _ hne]
      · rw [Dict.find?_insert_ne _ _ _ _ (Ne.symm h3)]
    · rw [mark_attendance_fail s today now sid' date status notes (Or.inr h1)]

theorem bulkStep_state_other (today now date_key : String)
    (acc : AttendanceSystem × List String × List String) (eid : String) :
    bulkStep today now date_key acc (eid, BulkEntry.other) = (acc.1, acc.2.1, acc.2.2 ++ [eid]) := rfl

theorem bulkStep_state_str (today now date_key : String)
    (acc : AttendanceSystem × List String × List String) (eid st : String) :
    (bulkStep today now date_key acc (eid, BulkEntry.str st)).1
      = (mark_attendance acc.1 today now eid (some date_key) st "").1 := by
  rw [bulkStep]
  split <;> rfl

theorem bulkStep_state_dict (today now date_key : String)
    (acc : AttendanceSystem × List String × List String) (eid : String) (d : Dict String) :
    (bulkStep today now date_key acc (eid, BulkEntry.dict d)).1
      = (mark_attendance acc.1 today now eid (some date_key)
          ((Dict.find? d "status").getD "present") ((Dict.find? d "notes").getD "")).1 := by
  rw [bulkStep]
  split <;> rfl

theorem bulkStep_failed_mono (today now date_key : String)
    (acc : AttendanceSystem × List String × List String) (e : String × BulkEntry)
    (sid : String) (h : sid ∈ acc.2.2) :
    sid ∈ (bulkStep today now date_key acc e).2.2 := by
  obtain ⟨eid, entry⟩ := e
  cases entry with
  | other => exact List.mem_append_left _ h
  | str st =>
    rw [bulkStep]
    split
    · exact h
    · exact List.mem_append_left _ h
  | dict d =>
    rw [bulkStep]
    split
    · exact h
    · exact List.mem_append_left _ h

theorem bulk_fold_mem_failed (today now date_key : String) (sid : String) :
    ∀ (l : List (String × BulkEntry)) (acc : AttendanceSystem × List String × List String),
      ((sid, BulkEntry.other) ∈ l ∨ sid ∈ acc.2.2) →
      sid ∈ (l.foldl (bulkStep today now date_key) acc).2.2 := by
  intro l
  induction l with
  | nil =>
    intro acc h
    rcases h with h | h
    · exact absurd h (List.not_mem_nil _)
    · exact h
  | cons e t ih =>
    intro acc h
    rw [List.foldl_cons]
    rcases h with h | h
    · rcases List.mem_cons.mp h with h1 | h1
      · apply ih
        right
        rw [← h1, bulkStep_state_other]
        exact List.mem_append_right _ (List.mem_singleton.mpr rfl)
      · exact ih _ (Or.inl h1)
    · exact ih _ (Or.inr (bulkStep_failed_mono _ _ _ _ _ _ h))

theorem bulk_fold_record_unchanged (today now date_key : String) (sid : String) :
    ∀ (l : List (String × BulkEntry)) (acc : AttendanceSystem × List String × List String),
      (∀ e ∈ l, e.1 = sid → e.2 = BulkEntry.other) →
      Dict.find? ((Dict.find?
          (l.foldl (bulkStep today now date_key) acc).1.attendance_records date_key).getD [])
        sid
      = Dict.find? ((Dict.find? acc.1.attendance_records date_key).getD []) sid := by
  intro l
  induction l with
  | nil => intro acc _; rfl
  | cons e t ih =>
    intro acc hall
    rw [List.foldl_cons, ih _ (fun q hq => hall q (List.mem_cons_of_mem _ hq))]
    obtain ⟨eid, entry⟩ := e
    by_cases heq : eid = sid
    · have hother : entry = BulkEntry.other :=
        hall (eid, entry) (List.mem_cons_self _ _) heq
      subst hother
      rfl
    · cases entry with
      | other => rfl
      | str st =>
        rw [bulkStep_state_str]
        exact mark_attendance_preserves_other _ _ _ _ _ _ _ _ _ (Ne.symm heq)
      | dict d =>
        rw [bulkStep_state_dict]
        exact mark_attendance_preserves_other _ _ _ _ _ _ _ _ _ (Ne.symm heq)

/-- Claim C7: a bulk-attendance entry is accepted only as a bare status
string — which behaves exactly like a structured value carrying that status
and empty notes — or as a structured (dict) value carrying status and notes;
an entry of any other shape is recorded as a failure for that student id and
marks no attendance: the student's record for the date (if any) is untouched. -/
theorem C7_bulk_entry_shapes (s : AttendanceSystem) (today now : String)
    (date : Option String) (status_dict : List (String × BulkEntry)) (sid : String)
    (hmem : (sid, BulkEntry.other) ∈ status_dict)
    (honly : ∀ e ∈ status_dict, e.1 = sid → e.2 = BulkEntry.other) :
    (sid ∈ (bulk_attendance s today now date status_dict).2.2
      ∧ Dict.find? ((Dict.find?
            (bulk_attendance s today now date status_dict).1.attendance_records
            (get_attendance_date_key today date)).getD []) sid
        = Dict.find? ((Dict.find? s.attendance_records
            (get_attendance_date_key today date)).getD []) sid)
    ∧ (∀ (acc : AttendanceSystem × List String × List String) (sid' st : String),
        bulkStep today now (get_attendance_date_key today date) acc
            (sid', BulkEntry.str st)
          = bulkStep today now (get_attendance_date_key today date) acc
              (sid', BulkEntry.dict [("status", st), ("notes", "")])) := by
  have hne : status_dict.isEmpty = false := by
    cases status_dict with
    | nil => cases hmem
    | cons a t => rfl
  constructor
  · constructor
    · have hfl : (bulk_attendance s today now date status_dict).2.2
          = (status_dict.foldl
              (bulkStep today now (get_attendance_date_key today date)) (s, [], [])).2.2 := by
        rw [bulk_attendance]
        simp [hne]
      rw [hfl]
      exact bulk_fold_mem_failed _ _ _ _ status_dict _ (Or.inl hmem)
    · have hrec : (bulk_attendance s today now date status_dict).1.attendance_records
          = (status_dict.foldl
              (bulkStep today now (get_attendance_date_key today date))
              (s, [], [])).1.attendance_records := by
        rw [bulk_attendance]
        simp [hne, _generate_daily_report]
      rw [hrec]
      exact bulk_fold_record_unchanged _ _ _ _ status_dict _ honly
  · intro acc sid' st
    rfl

/-- Claim C7 witness: a bulk call whose single entry for `S005` has an
invalid shape records `S005` as failed and leaves the (absent) record for
`(2025-01-02, S005)` absent. -/
theorem C7_witness :
    "S005" ∈ (bulk_attendance demoState "2025-01-02" "t7" (some "2025-01-02")
        [("S005", BulkEntry.other)]).2.2
    ∧ Dict.find? ((Dict.find? (bulk_attendance demoState "2025-01-02" "t7"
          (some "2025-01-02") [("S005", BulkEntry.other)]).1.attendance_records
          "2025-01-02").getD []) "S005"
      = none := by
  have h := C7_bulk_entry_shapes demoState "2025-01-02" "t7" (some "2025-01-02")
    [("S005", BulkEntry.other)] "S005" (by decide) (by decide)
  exact ⟨h.1.1, h.1.2.trans (by decide)⟩

/-! ### History query claim -/

theorem historyCond_eq_some (sid : String) (sd ed : Date) (dk : String)
    (recs : Dict AttendanceRecord) (r : AttendanceRecord) :
    historyCond sid sd ed dk recs = some r ↔
      ∃ d, parseDate dk = some d ∧ (dateLe sd d && dateLe d ed) = true
        ∧ Dict.find? recs sid = some r := by
  rw [historyCond]
  cases hp : parseDate dk with
  | none => simp
  | some d0 =>
    by_cases h1 : dateLe sd d0 = true
    · by_cases h2 : dateLe d0 ed = true
      · simp [h1, h2]
      · simp [h1, h2]
    · simp [h1]

/-- Claim C5: for an existing student and explicitly supplied parseable
start/end dates, the history query returns a payload (never an error, even
when no day matches) whose history contains a record under a date key iff
the key parses as a calendar date, start ≤ date ≤ end holds, and the student
has a record on that date (unparseable keys are silently skipped); its stats
are a zero-filled per-status tally over exactly the matched records, and the
rate is present-count over matched-day-count as a two-decimal percentage in
hundredths (`rate2`), `0` when no day matches. -/
theorem C5_student_history (s : AttendanceSystem) (today sid st en nm : String)
    (info : Dict String) (sd ed : Date)
    (hstud : Dict.find? s.students sid = some info)
    (hname : Dict.find? info "name" = some nm)
    (hsd : parseDate st = some sd) (hed : parseDate en = some ed)
    (hnd : (s.attendance_records.map Prod.fst).Nodup) :
    get_student_attendance_history s today sid (some st) (some en)
      = some (HistoryResult.ok (historyPayload s sid nm st en sd ed))
    ∧ (∀ dk r,
        Dict.find? (historyPayload s sid nm st en sd ed).history dk = some r ↔
        ∃ d recs, parseDate dk = some d ∧ (dateLe sd d && dateLe d ed) = true
          ∧ Dict.find? s.attendance_records dk = some recs
          ∧ Dict.find? recs sid = some r)
    ∧ (∀ stt, stt ∈ s.config.status_options →
        Dict.find? (historyPayload s sid nm st en sd ed).stats stt
          = some ((historyPayload s sid nm st en sd ed).history.countP
              (fun p => p.2.status == stt)))
    ∧ (∀ stt, stt ∉ s.config.status_options →
        Dict.find? (historyPayload s sid nm st en sd ed).stats stt = none)
    ∧ (historyPayload s sid nm st en sd ed).total_days
        = (historyPayload s sid nm st en sd ed).history.length
    ∧ (historyPayload s sid nm st en sd ed).attendance_rate
        = (if 0 < (historyPayload s sid nm st en sd ed).history.length
            then rate2
              (if "present" ∈ s.config.status_options
                then (historyPayload s sid nm st en sd ed).history.countP
                  (fun p => p.2.status == "present")
                else 0)
              (historyPayload s sid nm st en sd ed).history.length
            else 0) := by
  have hst' : st ≠ "" := by
    intro e
    rw [e, show parseDate "" = none from rfl] at hsd
    cases hsd
  have hen' : en ≠ "" := by
    intro e
    rw [e, show parseDate "" = none from rfl] at hed
    cases hed
  refine ⟨?_, ?_, ?_, ?_, rfl, ?_⟩
  · rw [get_student_attendance_history.eq_def]
    simp only [hstud, if_neg hen', if_neg hst']
    rw [historyAux, hsd, hed, hname]
  · intro dk r
    show Dict.find? (historyFor s sid sd ed) dk = some r ↔ _
    rw [historyFor_find? s sid sd ed dk hnd]
    constructor
    · intro hb
      obtain ⟨recs, hrecs, hcond⟩ := Option.bind_eq_some.mp hb
      obtain ⟨d0, hd0, hrange, hfind⟩ := (historyCond_eq_some sid sd ed dk recs r).mp hcond
      exact ⟨d0, recs, hd0, hrange, hrecs, hfind⟩
    · rintro ⟨d0, recs, hd0, hrange, hrecs, hfind⟩
      rw [hrecs]
      exact (historyCond_eq_some sid sd ed dk recs r).mpr ⟨d0, hd0, hrange, hfind⟩
  · intro stt hst
    show Dict.find? (tally (historyFor s sid sd ed)
        (zeroCounts s.config.status_options)) stt = _
    rw [tally_find?, zeroCounts_find?, if_pos hst]
    simp only [Option.map_some', Nat.zero_add]
    rfl
  · intro stt hst
    show Dict.find? (tally (historyFor s sid sd ed)
        (zeroCounts s.config.status_options)) stt = none
    rw [tally_find?, zeroCounts_find?, if_neg hst]
    rfl
  · show (if 0 < (historyFor s sid sd ed).length
        then rate2 ((Dict.find? (tally (historyFor s sid sd ed)
            (zeroCounts s.config.status_options)) "present").getD 0)
          (historyFor s sid sd ed).length
        else 0) = _
    by_cases hp : "present" ∈ s.config.status_options
    · rw [tally_find?, zeroCounts_find?, if_pos hp]
      simp only [Option.map_some', Option.getD_some, Nat.zero_add, if_pos hp]
      rfl
    · rw [tally_find?, zeroCounts_find?, if_neg hp]
      simp only [Option.map_none', Option.getD_none, if_neg hp]
      rfl

/-- Claim C5 witness: querying `S003` (who has no record) with
start = end = 2025-01-02 — a date on which other students do have records —
returns an empty history with rate `0`, not an error. -/
theorem C5_witness :
    get_student_attendance_history demoState "2025-01-10" "S003"
        (some "2025-01-02") (some "2025-01-02")
      = some (HistoryResult.ok (historyPayload demoState "S003" "Michael Brown"
          "2025-01-02" "2025-01-02" ⟨2025, 1, 2⟩ ⟨2025, 1, 2⟩))
    ∧ (historyPayload demoState "S003" "Michael Brown" "2025-01-02" "2025-01-02"
        ⟨2025, 1, 2⟩ ⟨2025, 1, 2⟩).history = []
    ∧ (historyPayload demoState "S003" "Michael Brown" "2025-01-02" "2025-01-02"
        ⟨2025, 1, 2⟩ ⟨2025, 1, 2⟩).attendance_rate = 0 := by
  have h := C5_student_history demoState "2025-01-10" "S003" "2025-01-02" "2025-01-02"
    "Michael Brown" (demoStudent "Michael Brown") ⟨2025, 1, 2⟩ ⟨2025, 1, 2⟩
    (by decide) (by decide) (by decide) (by decide) (by decide)
  exact ⟨h.1, by decide, by decide⟩

/-! ### String-order lemmas for the CSV date sort -/

theorem chLeB_trans : ∀ (a b c : List Char),
    chLeB a b = true → chLeB b c = true → chLeB a c = true := by
  intro a
  induction a with
  | nil => intro b c _ _; rfl
  | cons x xs ih =>
    intro b c hab hbc
    cases b with
    | nil => cases hab
    | cons y ys =>
      cases c with
      | nil => cases hbc
      | cons z zs =>
        rw [show chLeB (x :: xs) (y :: ys)
            = if x < y then true else if y < x then false else chLeB xs ys from rfl] at hab
        rw [show chLeB (y :: ys) (z :: zs)
            = if y < z then true else if z < y then false else chLeB ys zs from rfl] at hbc
        rw [show chLeB (x :: xs) (z :: zs)
            = if x < z then true else if z < x then false else chLeB xs zs from rfl]
        by_cases h1 : x < y
        · by_cases h2 : y < z
          · rw [if_pos (lt_trans h1 h2)]
          · by_cases h3 : z < y
            · rw [if_neg h2, if_pos h3] at hbc
              cases hbc
            · have hyz : y = z := le_antisymm (not_lt.mp h3) (not_lt.mp h2)
              subst hyz
              rw [if_pos h1]
        · by_cases h4 : y < x
          · rw [if_neg h1, if_pos h4] at hab
            cases hab
          · have hxy : x = y := le_antisymm (not_lt.mp h4) (not_lt.mp h1)
            subst hxy
            rw [if_neg h1, if_neg h4] at hab
            by_cases h2 : x < z
            · rw [if_pos h2]
            · by_cases h3 : z < x
              · rw [if_neg h2, if_pos h3] at hbc
                cases hbc
              · rw [if_neg h2, if_neg h3] at hbc
                rw [if_neg h2, if_neg h3]
                exact ih ys zs hab hbc

theorem chLeB_total : ∀ (a b : List Char), chLeB a b = true ∨ chLeB b a = true := by
  intro a
  induction a with
  | nil => intro b; left; rfl
  | cons x xs ih =>
    intro b
    cases b with
    | nil => right; rfl
    | cons y ys =>
      rw [show chLeB (x :: xs) (y :: ys)
          = if x < y then true else if y < x then false else chLeB xs ys from rfl]
      rw [show chLeB (y :: ys) (x :: xs)
          = if y < x then true else if x < y then false else chLeB ys xs from rfl]
      rcases lt_trichotomy x y with h | h | h
      · left
        rw [if_pos h]
      · subst h
        rw [if_neg (lt_irrefl x), if_neg (lt_irrefl x), if_neg (lt_irrefl x),
          if_neg (lt_irrefl x)]
        exact ih ys
      · right
        rw [if_pos h]

theorem chLtB_irrefl : ∀ (a : List Char), chLtB a a = false := by
  intro a
  induction a with
  | nil => rfl
  | cons x xs ih =>
    rw [show chLtB (x :: xs) (x :: xs)
        = if x < x then true else if x < x then false else chLtB xs xs from rfl]
    rw [if_neg (lt_irrefl x), if_neg (lt_irrefl x)]
    exact ih

theorem chLtB_not_le : ∀ (a b : List Char), chLtB a b = true → chLeB b a = false := by
  intro a
  induction a with
  | nil =>
    intro b h
    cases b with
    | nil => cases h
    | cons y ys => rfl
  | cons x xs ih =>
    intro b h
    cases b with
    | nil => cases h
    | cons y ys =>
      rw [show chLtB (x :: xs) (y :: ys)
          = if x < y then true else if y < x then false else chLtB xs ys from rfl] at h
      rw [show chLeB (y :: ys) (x :: xs)
          = if y < x then true else if x < y then false else chLeB ys xs from rfl]
      by_cases h1 : x < y
      · rw [if_neg (lt_asymm h1), if_pos h1]
      · by_cases h2 : y < x
        · rw [if_neg h1, if_pos h2] at h
          cases h
        · rw [if_neg h1, if_neg h2] at h
          rw [if_neg h2, if_neg h1]
          exact ih ys h

theorem strLtB_ne {a b : String} (h : strLtB a b = true) : a ≠ b := by
  intro e
  subst e
  rw [strLtB, chLtB_irrefl] at h
  cases h

theorem strLtB_not_le {a b : String} (h : strLtB a b = true) : strLeB b a = false :=
  chLtB_not_le a.toList b.toList h

instance : IsTotal String (fun a b => strLeB a b = true) :=
  ⟨fun a b => chLeB_total a.toList b.toList⟩

instance : IsTrans String (fun a b => strLeB a b = true) :=
  ⟨fun a b c => chLeB_trans a.toList b.toList c.toList⟩

theorem sorted_index_lt (l : List String)
    (hs : l.Sorted (fun a b => strLeB a b = true)) (a b : String)
    (ha : a ∈ l) (hb : b ∈ l) (hlt : strLtB a b = true) :
    l.indexOf a < l.indexOf b := by
  have hia := List.indexOf_lt_length.mpr ha
  have hib := List.indexOf_lt_length.mpr hb
  rcases Nat.lt_or_ge (l.indexOf a) (l.indexOf b) with h | h
  · exact h
  rcases Nat.eq_or_lt_of_le h with heq | hgt
  · exfalso
    apply strLtB_ne hlt
    have hget : l.get ⟨l.indexOf a, hia⟩ = l.get ⟨l.indexOf b, hib⟩ := by
      congr 1
      exact Fin.ext heq.symm
    rw [List.indexOf_get, List.indexOf_get] at hget
    exact hget
  · exfalso
    have hrel := @List.Sorted.rel_get_of_lt String (fun a b => strLeB a b = true) l hs
      ⟨l.indexOf b, hib⟩ ⟨l.indexOf a, hia⟩ hgt
    rw [List.indexOf_get, List.indexOf_get] at hrel
    rw [strLtB_not_le hlt] at hrel
    cases hrel

/-! ### CSV export claim -/

theorem mem_keys_inner_fold (s : AttendanceSystem) (sid : String) :
    ∀ (recs : Dict AttendanceRecord) (acc : Dict (Dict String)),
      (sid ∈ Dict.keys acc ∨ sid ∈ Dict.keys recs) →
      sid ∈ Dict.keys (recs.foldl
        (fun acc2 q =>
          Dict.insert acc2 q.1 ((Dict.find? s.students q.1).getD [("name", "Unknown")]))
        acc) := by
  intro recs
  induction recs with
  | nil =>
    intro acc h
    rcases h with h | h
    · exact h
    · exact absurd h (List.not_mem_nil _)
  | cons q t ih =>
    intro acc h
    rw [List.foldl_cons]
    rcases h with h | h
    · exact ih _ (Or.inl ((Dict.mem_keys_insert _ _ _ _).mpr (Or.inr h)))
    · rcases List.mem_cons.mp h with h1 | h1
      · exact ih _ (Or.inl ((Dict.mem_keys_insert _ _ _ _).mpr (Or.inl h1)))
      · exact ih _ (Or.inr h1)

theorem mem_keys_monthlyStudents (s : AttendanceSystem) (year month : Nat)
    (dk sid : String) (recs : Dict AttendanceRecord)
    (hmem : (dk, recs) ∈ monthlyData s year month)
    (hsid : sid ∈ Dict.keys recs) :
    sid ∈ Dict.keys (monthlyStudents s year month) := by
  rw [monthlyStudents]
  have hgen : ∀ (l : Dict (Dict AttendanceRecord)) (acc : Dict (Dict String)),
      (sid ∈ Dict.keys acc ∨ ∃ p ∈ l, sid ∈ Dict.keys p.2) →
      sid ∈ Dict.keys (l.foldl
        (fun acc p => p.2.foldl
          (fun acc2 q =>
            Dict.insert acc2 q.1 ((Dict.find? s.students q.1).getD [("name", "Unknown")]))
          acc)
        acc) := by
    intro l
    induction l with
    | nil =>
      intro acc h
      rcases h with h | ⟨p, hp, _⟩
      · exact h
      · exact absurd hp (List.not_mem_nil _)
    | cons e t ih =>
      intro acc h
      rw [List.foldl_cons]
      rcases h with h | ⟨p, hp, hps⟩
      · exact ih _ (Or.inl (mem_keys_inner_fold s sid e.2 acc (Or.inl h)))
      · rcases List.mem_cons.mp hp with h1 | h1
        · subst h1
          exact ih _ (Or.inl (mem_keys_inner_fold s sid p.2 acc (Or.inr hps)))
        · exact ih _ (Or.inr ⟨p, h1, hps⟩)
  exact hgen _ _ (Or.inr ⟨(dk, recs), hmem, hsid⟩)

theorem csvCell_status (md : Dict (Dict AttendanceRecord)) (sid dk : String)
    (recs : Dict AttendanceRecord) (r : AttendanceRecord)
    (h1 : Dict.find? md dk = some recs) (h2 : Dict.find? recs sid = some r) :
    csvCell md sid dk = r.status := by
  simp [csvCell, h1, h2]

theorem csvCell_na (md : Dict (Dict AttendanceRecord)) (sid dk : String)
    (recs : Dict AttendanceRecord)
    (h1 : Dict.find? md dk = some recs) (h2 : Dict.find? recs sid = none) :
    csvCell md sid dk = "N/A" := by
  simp [csvCell, h1, h2]

/-- Claim C9: the CSV monthly export writes one header row — `Student ID`,
`Name`, then one column per date with records that month, sorted ascending —
and one row per student having at least one record that month; for a student
with a record on `D1` and none on `D2` (both dates of the month, `D1 < D2`),
the student's row carries the record's status in `D1`'s column and `"N/A"`
in `D2`'s column, `D1`'s column lying left of `D2`'s. -/
theorem C9_csv_export (s : AttendanceSystem) (now : String) (year month : Nat)
    (sid D1 D2 : String) (recs1 recs2 : Dict AttendanceRecord) (r : AttendanceRecord)
    (h1 : Dict.find? (monthlyData s year month) D1 = some recs1)
    (hrec : Dict.find? recs1 sid = some r)
    (h2 : Dict.find? (monthlyData s year month) D2 = some recs2)
    (hno : Dict.find? recs2 sid = none)
    (hlt : strLtB D1 D2 = true) :
    export_monthly_report s now year month "csv"
      = ExportResult.csvFile
          (s.data_directory ++ "/exports/attendance_" ++ monthStr year month ++ ".csv")
          (csvRows s year month)
    ∧ ∃ header body, csvRows s year month = header :: body
      ∧ (∃ dates, header = "Student ID" :: "Name" :: dates
          ∧ dates.Perm ((monthlyData s year month).map Prod.fst)
          ∧ dates.Sorted (fun a b => strLeB a b = true))
      ∧ body.length = (monthlyStudents s year month).length
      ∧ ∃ row ∈ body, row.get? 0 = some sid
        ∧ ∃ i j, i < j
          ∧ header.get? i = some D1 ∧ header.get? j = some D2
          ∧ row.get? i = some r.status ∧ row.get? j = some "N/A" := by
  have hexp : export_monthly_report s now year month "csv"
      = ExportResult.csvFile
          (s.data_directory ++ "/exports/attendance_" ++ monthStr year month ++ ".csv")
          (csvRows s year month) := by
    rw [export_monthly_report]
    rw [if_neg (by decide), if_pos (by decide)]
  refine ⟨hexp, csvHeader s year month,
    (monthlyStudents s year month).map (csvRow s year month), rfl,
    ⟨allDatesSorted s year month, rfl, List.perm_insertionSort _ _,
      List.sorted_insertionSort _ _⟩,
    List.length_map _ _, ?_⟩
  have hmem1 : D1 ∈ allDatesSorted s year month :=
    (List.mem_insertionSort _).mpr
      (List.mem_map_of_mem Prod.fst (Dict.find?_some_mem h1))
  have hmem2 : D2 ∈ allDatesSorted s year month :=
    (List.mem_insertionSort _).mpr
      (List.mem_map_of_mem Prod.fst (Dict.find?_some_mem h2))
  have hsorted : (allDatesSorted s year month).Sorted (fun a b => strLeB a b = true) :=
    List.sorted_insertionSort _ _
  have hij := sorted_index_lt _ hsorted D1 D2 hmem1 hmem2 hlt
  have hsk : sid ∈ Dict.keys (monthlyStudents s year month) :=
    mem_keys_monthlyStudents s year month D1 sid recs1 (Dict.find?_some_mem h1)
      (List.mem_map_of_mem Prod.fst (Dict.find?_some_mem hrec))
  obtain ⟨info, hinfo⟩ := Dict.find?_isSome_of_mem_keys hsk
  refine ⟨csvRow s year month (sid, info),
    List.mem_map_of_mem _ (Dict.find?_some_mem hinfo), rfl,
    (allDatesSorted s year month).indexOf D1 + 2,
    (allDatesSorted s year month).indexOf D2 + 2, by omega, ?_, ?_, ?_, ?_⟩
  · show List.get? ("Student ID" :: "Name" :: allDatesSorted s year month)
      ((allDatesSorted s year month).indexOf D1 + 1 + 1) = some D1
    rw [List.get?_cons_succ, List.get?_cons_succ]
    exact List.indexOf_get? hmem1
  · show List.get? ("Student ID" :: "Name" :: allDatesSorted s year month)
      ((allDatesSorted s year month).indexOf D2 + 1 + 1) = some D2
    rw [List.get?_cons_succ, List.get?_cons_succ]
    exact List.indexOf_get? hmem2
  · show List.get? (sid :: ((Dict.find? info "name").getD "Unknown")
        :: (allDatesSorted s year month).map
          (fun date => csvCell (monthlyData s year month) sid date))
      ((allDatesSorted s year month).indexOf D1 + 1 + 1) = some r.status
    rw [List.get?_cons_succ, List.get?_cons_succ, List.get?_map,
      List.indexOf_get? hmem1]
    rw [Option.map_some', csvCell_status _ _ _ _ _ h1 hrec]
  · show List.get? (sid :: ((Dict.find? info "name").getD "Unknown")
        :: (allDatesSorted s year month).map
          (fun date => csvCell (monthlyData s year month) sid date))
      ((allDatesSorted s year month).indexOf D2 + 1 + 1) = some "N/A"
    rw [List.get?_cons_succ, List.get?_cons_succ, List.get?_map,
      List.indexOf_get? hmem2]
    rw [Option.map_some', csvCell_na _ _ _ _ h2 hno]

/-- Claim C9 witness: in the January 2025 export of the demo ledger, `S001`
has a record only on 2025-01-02 and 2025-01-03 also has records; `S001`'s
row shows `present` under the 2025-01-02 column and `N/A` under the later
2025-01-03 column. -/
theorem C9_witness :
    export_monthly_report demoState "2025-02-01 00:00:00" 2025 1 "csv"
      = ExportResult.csvFile
          (demoState.data_directory ++ "/exports/attendance_" ++ monthStr 2025 1 ++ ".csv")
          (csvRows demoState 2025 1)
    ∧ ∃ header body, csvRows demoState 2025 1 = header :: body
      ∧ ∃ row ∈ body, row.get? 0 = some "S001"
        ∧ ∃ i j, i < j
          ∧ header.get? i = some "2025-01-02" ∧ header.get? j = some "2025-01-03"
          ∧ row.get? i = some "present" ∧ row.get? j = some "N/A" := by
  have h := C9_csv_export demoState "2025-02-01 00:00:00" 2025 1 "S001"
    "2025-01-02" "2025-01-03" demoDay demoDay2
    { status := "present", timestamp := "2025-01-02 08:00:00", notes := "" }
    (by decide) (by decide) (by decide) (by decide) (by decide)
  obtain ⟨hexp, header, body, hrows, _, _, row, hrowmem, hhead, i, j, hij, hh1, hh2,
    hr1, hr2⟩ := h
  exact ⟨hexp, header, body, hrows, row, hrowmem, hhead, i, j, hij, hh1, hh2, hr1, hr2⟩
